import Mathlib

/-!
Verification development for the `cube` repository.

The repository has two Python source files:
* `test_marked_cube.py` — test-stub scaffolding: `create_marked_cube_test`,
  `create_equivalence_tests`, and a `__main__` block that prints a report.
* `parse_orders.py` — a scraper that extracts (order, sequence) pairs from
  the first table of a fetched page.

The move engine itself does not exist in the repository; where a claim is
about the engine, the definitions below are modelled from the spec and say
so in their doc comments.
-/

namespace Cube

/-- The six faces of the cube, in the fixed enumeration order used for
facelet indexing: U, R, F, D, L, B (9 facelets each, 54 total). -/
inductive Face where
  | U
  | R
  | F
  | D
  | L
  | B
deriving DecidableEq, Repr, Fintype

/-- Integer 3-vectors, used for facelet cubie positions and outward normals
on the cube `[-1,1]^3`. -/
abbrev V3 := Int × Int × Int

/-- Outward unit normal of each face: x right, y up, z front. -/
def faceNormal : Face → V3
  | .U => (0, 1, 0)
  | .R => (1, 0, 0)
  | .F => (0, 0, 1)
  | .D => (0, -1, 0)
  | .L => (-1, 0, 0)
  | .B => (0, 0, -1)

/-- Modelled from the spec: cubie position of the facelet at row `r`,
column `c` of a face (rows/columns as in the standard flat layout: U is read
from above with B at the top, D from below with F at the top, F/R/L/B from
outside with U at the top; row 0 = edge nearest the fixed reference face). -/
def faceletPos : Face → Nat → Nat → V3
  | .U, r, c => ((c : Int) - 1, 1, (r : Int) - 1)
  | .R, r, c => (1, 1 - (r : Int), 1 - (c : Int))
  | .F, r, c => ((c : Int) - 1, 1 - (r : Int), 1)
  | .D, r, c => ((c : Int) - 1, -1, 1 - (r : Int))
  | .L, r, c => (-1, 1 - (r : Int), (c : Int) - 1)
  | .B, r, c => (1 - (c : Int), 1 - (r : Int), -1)

/-- Face owning facelet index `i` (indices 0-8 are U, 9-17 R, 18-26 F,
27-35 D, 36-44 L, 45-53 B). -/
def idxFace (i : Fin 54) : Face :=
  match i.val / 9 with
  | 0 => .U
  | 1 => .R
  | 2 => .F
  | 3 => .D
  | 4 => .L
  | _ => .B

/-- Row (0-2) of facelet index `i` within its face. -/
def idxRow (i : Fin 54) : Nat := (i.val % 9) / 3

/-- Column (0-2) of facelet index `i` within its face. -/
def idxCol (i : Fin 54) : Nat := i.val % 3

/-- Geometric datum of a facelet: its cubie position and outward normal. -/
def faceletData (i : Fin 54) : V3 × V3 :=
  (faceletPos (idxFace i) (idxRow i) (idxCol i), faceNormal (idxFace i))

/-- Modelled from the spec: the quarter-turn rotation of face `f`,
clockwise as viewed from outside the face, acting on 3-vectors. -/
def rotCW : Face → V3 → V3
  | .U, (x, y, z) => (-z, y, x)
  | .D, (x, y, z) => (z, y, -x)
  | .R, (x, y, z) => (x, z, -y)
  | .L, (x, y, z) => (x, -z, y)
  | .F, (x, y, z) => (y, -x, z)
  | .B, (x, y, z) => (-y, x, z)

/-- Modelled from the spec: the quarter-turn rotation of face `f`,
counter-clockwise as viewed from outside the face (inverse of `rotCW`). -/
def rotCCW : Face → V3 → V3
  | .U, (x, y, z) => (z, y, -x)
  | .D, (x, y, z) => (-z, y, x)
  | .R, (x, y, z) => (x, -z, y)
  | .L, (x, y, z) => (x, z, -y)
  | .F, (x, y, z) => (-y, x, z)
  | .B, (x, y, z) => (y, -x, z)

/-- Dot product of integer 3-vectors. -/
def dotV3 (a b : V3) : Int := a.1 * b.1 + a.2.1 * b.2.1 + a.2.2 * b.2.2

/-- A cubie position lies in the moving layer of face `f` iff its
coordinate along the face normal is 1 (the outermost layer). -/
def inLayer (f : Face) (p : V3) : Bool := dotV3 p (faceNormal f) = 1

/-- Apply a rigid layer rotation to one facelet's geometric datum: facelets
in the layer of `f` rotate (position and normal), all others stay fixed. -/
def rotFacelet (rot : Face → V3 → V3) (f : Face) (pn : V3 × V3) : V3 × V3 :=
  if inLayer f pn.1 then (rot f pn.1, rot f pn.2) else pn

/-- The face whose outward normal is `n` (defaults to U on a non-normal). -/
def normalFace (n : V3) : Face :=
  if n = (1, 0, 0) then .R
  else if n = (0, 0, 1) then .F
  else if n = (0, -1, 0) then .D
  else if n = (-1, 0, 0) then .L
  else if n = (0, 0, -1) then .B
  else .U

/-- Enumeration index of a face in the fixed facelet order U,R,F,D,L,B. -/
def faceIdx : Face → Nat
  | .U => 0
  | .R => 1
  | .F => 2
  | .D => 3
  | .L => 4
  | .B => 5

/-- Row and column of the facelet of face `f` whose cubie position is `p`
(inverse of `faceletPos`). -/
def rowColOf (f : Face) (p : V3) : Nat × Nat :=
  match f with
  | .U => ((p.2.2 + 1).toNat, (p.1 + 1).toNat)
  | .R => ((1 - p.2.1).toNat, (1 - p.2.2).toNat)
  | .F => ((1 - p.2.1).toNat, (p.1 + 1).toNat)
  | .D => ((1 - p.2.2).toNat, (p.1 + 1).toNat)
  | .L => ((1 - p.2.1).toNat, (p.2.2 + 1).toNat)
  | .B => ((1 - p.2.1).toNat, (1 - p.1).toNat)

/-- Recover the facelet index from a geometric datum (position, normal):
the face comes from the normal, row and column from the position. Total by
reducing modulo 54 (a no-op on genuine facelet data). -/
def findIdx (pn : V3 × V3) : Fin 54 :=
  let f := normalFace pn.2
  let rc := rowColOf f pn.1
  ⟨(9 * faceIdx f + 3 * rc.1 + rc.2) % 54, Nat.mod_lt _ (by decide)⟩

/-- Sanity check: `findIdx` inverts `faceletData` on every facelet. -/
theorem findIdx_faceletData : ∀ (i : Fin 54), findIdx (faceletData i) = i := by decide

/-- Modelled from the spec: the facelet permutation of a clockwise quarter
turn of face `f` — facelet `i` moves to `permCW f i`. -/
def permCW (f : Face) (i : Fin 54) : Fin 54 :=
  findIdx (rotFacelet rotCW f (faceletData i))

/-- Modelled from the spec: the facelet permutation of a counter-clockwise
quarter turn of face `f` — facelet `i` moves to `permCCW f i`. -/
def permCCW (f : Face) (i : Fin 54) : Fin 54 :=
  findIdx (rotFacelet rotCCW f (faceletData i))

theorem permCW_permCCW : ∀ (f : Face) (i : Fin 54), permCW f (permCCW f i) = i := by decide

theorem permCCW_permCW : ∀ (f : Face) (i : Fin 54), permCCW f (permCW f i) = i := by decide

/-- Modelled from the spec: a Cube State is an ordered, fixed-size
collection of 54 sticker slots; each slot holds a sticker identity (an
opaque comparable token, here a string). Two states are equivalent iff
every slot holds the same identity, which for this functional
representation is function equality (by funext). -/
def CubeState := Fin 54 → String

/-- Modelled from the spec: the three move modifiers — quarter-turn
clockwise, quarter-turn counter-clockwise, half-turn. -/
inductive Modifier where
  | cw
  | ccw
  | half
deriving DecidableEq, Repr

/-- Modelled from the spec: a move is a face letter plus a modifier. -/
structure Move where
  face : Face
  mod : Modifier
deriving DecidableEq, Repr

/-- Apply a clockwise quarter turn of face `f`: the sticker now at slot `i`
came from slot `permCCW f i` (the inverse image under the forward
permutation `permCW f`). -/
def applyQuarterCW (f : Face) (s : CubeState) : CubeState :=
  fun i => s (permCCW f i)

/-- Apply a counter-clockwise quarter turn of face `f`. -/
def applyQuarterCCW (f : Face) (s : CubeState) : CubeState :=
  fun i => s (permCW f i)

/-- Modelled from the spec: the Move Engine — a half-turn is two clockwise
quarter turns composed. -/
def applyMove (m : Move) (s : CubeState) : CubeState :=
  match m.mod with
  | .cw => applyQuarterCW m.face s
  | .ccw => applyQuarterCCW m.face s
  | .half => applyQuarterCW m.face (applyQuarterCW m.face s)

/-- Modelled from the spec: the Sequence Executor folds the Move Engine
over the state left-to-right (first token applied first). -/
def applySeq (ms : List Move) (s : CubeState) : CubeState :=
  ms.foldl (fun t m => applyMove m t) s

/-- Single-letter name of a face. -/
def faceLetter : Face → String
  | .U => "U"
  | .R => "R"
  | .F => "F"
  | .D => "D"
  | .L => "L"
  | .B => "B"

/-- Decimal digit character for a row/column index. -/
def digitChar (n : Nat) : Char := Char.ofNat (48 + n % 10)

/-- Modelled from the spec: the solved marked reference state — each slot's
identity is the token FaceLetter-row-col of its own coordinate, so every
sticker carries a unique origin marker. -/
def markedSolved : CubeState :=
  fun i =>
    faceLetter (idxFace i) ++ String.mk [digitChar (idxRow i), digitChar (idxCol i)]

/-- The 54 sticker identities of a state, in facelet-index order. -/
def stateList (s : CubeState) : List String :=
  (List.finRange 54).map s

/-- Modelled from the spec: the Equivalence Checker — two states are
equivalent iff every one of the 54 slots has identical identity. -/
def equivStates (a b : CubeState) : Bool :=
  (List.finRange 54).all fun i => a i == b i

/-- The multiset of the 54 sticker identities of a state. -/
def stickerMultiset (s : CubeState) : Multiset String :=
  Multiset.map s Finset.univ.val

/-- The apostrophe character, the counter-clockwise modifier in cube
notation. -/
def apostrophe : Char := Char.ofNat 39

/-- Modelled from the spec: map a face letter character to its face; face
letters are restricted to U, D, L, R, F, B. -/
def parseFaceChar (c : Char) : Option Face :=
  if c = 'U' then some .U
  else if c = 'D' then some .D
  else if c = 'L' then some .L
  else if c = 'R' then some .R
  else if c = 'F' then some .F
  else if c = 'B' then some .B
  else none

/-- Modelled from the spec: validate one token against the grammar
FaceLetter followed optionally by apostrophe or 2, and map it to a Move. -/
def parseToken (t : String) : Option Move :=
  match t.data with
  | [c] => (parseFaceChar c).map fun f => ⟨f, .cw⟩
  | [c, m] =>
    match parseFaceChar c with
    | some f =>
      if m = apostrophe then some ⟨f, .ccw⟩
      else if m = '2' then some ⟨f, .half⟩
      else none
    | none => none
  | _ => none

/-- Split a character list on whitespace, dropping empty chunks (the
accumulator holds the current chunk reversed). -/
def splitWSAux : List Char → List Char → List String
  | [], acc => if acc.isEmpty then [] else [String.mk acc.reverse]
  | c :: cs, acc =>
    if c.isWhitespace then
      if acc.isEmpty then splitWSAux cs []
      else String.mk acc.reverse :: splitWSAux cs []
    else splitWSAux cs (c :: acc)

/-- Modelled from the spec: tokenize a sequence string on whitespace;
empty chunks from repeated whitespace are skipped, not an error. -/
def tokenize (s : String) : List String := splitWSAux s.data []

/-- Modelled from the spec: parse a whole sequence string; fails iff some
token is malformed. The empty string parses to the empty (identity)
sequence. -/
def parseSeq (s : String) : Option (List Move) := (tokenize s).mapM parseToken

/-- A sequence string is well-formed iff it parses. -/
def wellFormedSeq (s : String) : Bool := (parseSeq s).isSome

/-- Modelled from the spec: run a sequence string on the solved marked
reference state, returning the 54 resulting sticker identities (or none on
a parse failure). -/
def runSeqList (s : String) : Option (List String) :=
  (parseSeq s).map fun ms => stateList (applySeq ms markedSolved)

theorem permCCW_pow4 :
    ∀ (f : Face) (i : Fin 54), permCCW f (permCCW f (permCCW f (permCCW f i))) = i := by
  decide

/-- The counter-clockwise facelet permutation as an `Equiv.Perm`, with the
clockwise permutation as its inverse. -/
def quarterEquiv (f : Face) : Equiv.Perm (Fin 54) :=
  ⟨permCCW f, permCW f, permCW_permCCW f, permCCW_permCW f⟩

/-- The slot-origin permutation of a whole move: slot `i` of the result
holds the sticker previously at slot `movePermEquiv m i`. -/
def movePermEquiv (m : Move) : Equiv.Perm (Fin 54) :=
  match m.mod with
  | .cw => quarterEquiv m.face
  | .ccw => (quarterEquiv m.face).symm
  | .half => (quarterEquiv m.face).trans (quarterEquiv m.face)

theorem applyMove_eq (m : Move) (s : CubeState) :
    applyMove m s = fun i => s (movePermEquiv m i) := by
  cases m with
  | mk f md => cases md <;> rfl

theorem moveMultiset (m : Move) (s : CubeState) :
    stickerMultiset (applyMove m s) = stickerMultiset s := by
  rw [applyMove_eq]
  show Multiset.map (fun i => s (movePermEquiv m i)) Finset.univ.val =
    Multiset.map s Finset.univ.val
  rw [show (fun i => s (movePermEquiv m i)) = s ∘ (movePermEquiv m) from rfl,
    ← Multiset.map_map, Multiset.map_univ_val_equiv]

end Cube

namespace TestMarkedCube

/-- A test case of `test_marked_cube.py`: a dict with keys name, move,
description. -/
structure TestCase where
  name : String
  move : String
  description : String
deriving DecidableEq, Repr

/-- The `basic_moves` list of `create_marked_cube_test`
(src/test_marked_cube.py lines 17-18). -/
def basic_moves : List String :=
  ["R", "R'", "R2", "L", "L'", "L2", "U", "U'", "U2",
   "D", "D'", "D2", "F", "F'", "F2", "B", "B'", "B2"]

/-- Embedding of `create_marked_cube_test` (src/test_marked_cube.py lines
6-29): one test case per basic move, with f-string name and description. -/
def create_marked_cube_test : List TestCase :=
  basic_moves.map fun move =>
    ⟨"marked_cube_" ++ move, move, "Apply " ++ move ++ " to marked cube to detect inversions"⟩

/-- Embedding of `create_equivalence_tests` (src/test_marked_cube.py lines
32-52): the literal list of sequence pairs. -/
def create_equivalence_tests : List (String × String) :=
  [("R U R'", "R U R'"),
   ("R R R R", ""),
   ("R2 R2", ""),
   ("R U' U R'", "R R'"),
   ("R U R' U'", "(R U R' U')"),
   ("R U R' U'", "U R U' R'")]

/-- The lines printed by the Marked Cube Tests section of `__main__`
(src/test_marked_cube.py lines 55-60): only the first 5 test cases are
shown, each as three labelled lines and a blank line. -/
def mainMarkedLines : List String :=
  (create_marked_cube_test.take 5).flatMap fun t =>
    ["Test: " ++ t.name, "Move: " ++ t.move, "Description: " ++ t.description, ""]

/-- The report line `__main__` prints for one equivalence pair
(src/test_marked_cube.py line 64): it asserts the two sequences should be
equal. The apostrophes are the f-string's quoting of the sequences. -/
def equivReportLine (p : String × String) : String :=
  "'" ++ p.1 ++ "' should equal '" ++ p.2 ++ "'"

/-- The lines printed by the Equivalence Tests section of `__main__`
(src/test_marked_cube.py lines 63-64): one report line per pair, for every
pair in the list. -/
def equivReportLines : List String :=
  create_equivalence_tests.map equivReportLine

end TestMarkedCube

namespace ParseOrders

/-- Embedding of Python str.isdigit as used on the scraped order cell
(src/parse_orders.py line 29): true iff the string is non-empty and every
character is a decimal digit (Unicode digit classes beyond 0-9 are not
modelled; the scraped cells are ASCII). -/
def pyIsdigit (s : String) : Bool := !s.isEmpty && s.data.all Char.isDigit

/-- Embedding of the per-row body of the scraper loop (src/parse_orders.py
lines 23-30): a row is a list of td-cell texts; the row yields the line
order TAB sequence iff it has at least 3 cells, the stripped first cell is
truthy and all digits, and the stripped third cell is truthy.
BeautifulSoup get_text with strip=True is modelled as String.trim. -/
def rowLine (cells : List String) : Option String :=
  if 3 ≤ cells.length then
    let order := (cells.getD 0 "").trim
    let sequence_3x3 := (cells.getD 2 "").trim
    if !order.isEmpty && !sequence_3x3.isEmpty && pyIsdigit order then
      some (order ++ "\t" ++ sequence_3x3)
    else none
  else none

/-- Embedding of the whole scraper script (src/parse_orders.py lines
12-30): the page is either no table, or the first table's rows (each a
list of cell texts). Output is the printed lines and the exit code. With
no table the script prints one line and exits 1; otherwise it prints the
two header lines, then one data line per matching row after the header
row, and finishes normally (exit 0). -/
def scrapeOutput (page : Option (List (List String))) : List String × Nat :=
  match page with
  | none => (["No table found!"], 1)
  | some rows =>
    ("Order\t3x3x3 Sequence" :: "-----\t--------------" ::
      (rows.drop 1).filterMap rowLine, 0)

end ParseOrders




open Cube TestMarkedCube ParseOrders

/-- C1: the claim says the harness does not assert equality for the pair
("R U R' U'", "U R U' R'") and that its report expects different results.
The code disagrees: `__main__` prints a "should equal" report line for
every pair, including this one, even though the two sequences genuinely
produce different marked states (so asserting inequality would be the
correct behavior, as the claim and the code's own comment say). This
theorem evaluates the code at the failing input: the pair is in the list,
the harness emits an equality assertion for it, and the two sequences do
differ on the solved marked state. -/
theorem claim_C1 :
    ("R U R' U'", "U R U' R'") ∈ create_equivalence_tests ∧
    equivReportLine ("R U R' U'", "U R U' R'") =
      "'R U R' U'' should equal 'U R U' R''" ∧
    equivReportLine ("R U R' U'", "U R U' R'") ∈ equivReportLines ∧
    runSeqList "R U R' U'" ≠ runSeqList "U R U' R'" := by
  refine ⟨by decide, rfl, by decide, by decide⟩

/-- C2 counterexample: the pair ("R U R' U'", "(R U R' U')") is returned
by create_equivalence_tests, and its second component is not a well-formed
move sequence under the input notation (the parentheses are not in the
grammar FaceLetter followed optionally by apostrophe or 2). -/
theorem claim_C2_counterexample :
    ("R U R' U'", "(R U R' U')") ∈ create_equivalence_tests ∧
    wellFormedSeq "(R U R' U')" = false := by
  decide

/-- C2 amended: every sequence string occurring in a pair returned by
create_equivalence_tests, except the string "(R U R' U')", is a
well-formed move sequence under the input notation. -/
theorem claim_C2 :
    ((create_equivalence_tests.flatMap fun p => [p.1, p.2]).filter
      (fun s => s != "(R U R' U')")).all wellFormedSeq = true := by
  decide

/-- C3: the list returned by create_equivalence_tests contains the three
cancellation pairs ("R R R R", ""), ("R2 R2", ""), ("R U' U R'", "R R'"),
and the harness records each as a pair expected to produce identical
results (a "should equal" report line is emitted for each). -/
theorem claim_C3 :
    ("R R R R", "") ∈ create_equivalence_tests ∧
    ("R2 R2", "") ∈ create_equivalence_tests ∧
    ("R U' U R'", "R R'") ∈ create_equivalence_tests ∧
    equivReportLine ("R R R R", "") ∈ equivReportLines ∧
    equivReportLine ("R2 R2", "") ∈ equivReportLines ∧
    equivReportLine ("R U' U R'", "R R'") ∈ equivReportLines := by
  decide

/-- C4: create_marked_cube_test returns exactly 18 test cases, whose move
tokens are precisely the 18 combinations of a face letter in {R,L,U,D,F,B}
with the three modifiers (bare letter, apostrophe, 2) — each token parses
to the corresponding (face, modifier) move — and every test case's name is
"marked_cube_" followed by its move. -/
theorem claim_C4 :
    create_marked_cube_test.length = 18 ∧
    create_marked_cube_test.map TestCase.move =
      ["R", "R'", "R2", "L", "L'", "L2", "U", "U'", "U2",
       "D", "D'", "D2", "F", "F'", "F2", "B", "B'", "B2"] ∧
    create_marked_cube_test.map (fun t => parseToken t.move) =
      [some ⟨.R, .cw⟩, some ⟨.R, .ccw⟩, some ⟨.R, .half⟩,
       some ⟨.L, .cw⟩, some ⟨.L, .ccw⟩, some ⟨.L, .half⟩,
       some ⟨.U, .cw⟩, some ⟨.U, .ccw⟩, some ⟨.U, .half⟩,
       some ⟨.D, .cw⟩, some ⟨.D, .ccw⟩, some ⟨.D, .half⟩,
       some ⟨.F, .cw⟩, some ⟨.F, .ccw⟩, some ⟨.F, .half⟩,
       some ⟨.B, .cw⟩, some ⟨.B, .ccw⟩, some ⟨.B, .half⟩] ∧
    (create_marked_cube_test.all fun t => t.name == "marked_cube_" ++ t.move) = true := by
  refine ⟨rfl, rfl, by decide, by decide⟩

/-- C5: for every face F and every cube state S, applying the clockwise
quarter turn of F four times returns a state equivalent to S (equivalence
of states is slot-wise identity, i.e. function equality here). -/
theorem claim_C5 (f : Face) (s : CubeState) :
    applyMove ⟨f, .cw⟩ (applyMove ⟨f, .cw⟩ (applyMove ⟨f, .cw⟩ (applyMove ⟨f, .cw⟩ s))) = s := by
  funext i
  show s (permCCW f (permCCW f (permCCW f (permCCW f i)))) = s i
  rw [permCCW_pow4]

/-- C5 witness: instantiated at face R and the solved marked state. -/
theorem claim_C5_witness :
    applyMove ⟨.R, .cw⟩ (applyMove ⟨.R, .cw⟩ (applyMove ⟨.R, .cw⟩ (applyMove ⟨.R, .cw⟩ markedSolved))) =
      markedSolved :=
  claim_C5 .R markedSolved

/-- C6: for every cube state and every sequence of legal moves, the
multiset of the 54 sticker identities after applying the sequence equals
the multiset before — every move permutes sticker identities, never
duplicating or destroying one. -/
theorem claim_C6 (s : CubeState) (ms : List Move) :
    stickerMultiset (applySeq ms s) = stickerMultiset s := by
  induction ms generalizing s with
  | nil => rfl
  | cons m rest ih =>
    have h : applySeq (m :: rest) s = applySeq rest (applyMove m s) := rfl
    rw [h, ih, moveMultiset]

/-- C7: the scraped output for a page with a table is the two header lines
followed by data lines from the rows after the header row only; and a row
yields the line order-TAB-sequence if and only if it has at least three
cells, the stripped text of its first cell is non-empty and consists
solely of digits, and the stripped text of its third cell is non-empty. -/
theorem claim_C7 (rows : List (List String)) (cells : List String) :
    (scrapeOutput (some rows)).1 =
      "Order\t3x3x3 Sequence" :: "-----\t--------------" ::
        (rows.drop 1).filterMap rowLine ∧
    rowLine cells =
      (if 3 ≤ cells.length ∧ (cells.getD 0 "").trim ≠ "" ∧
          (∀ c ∈ ((cells.getD 0 "").trim).data, c.isDigit) ∧
          (cells.getD 2 "").trim ≠ "" then
        some ((cells.getD 0 "").trim ++ "\t" ++ (cells.getD 2 "").trim)
      else none) := by
  refine ⟨rfl, ?_⟩
  have hrw : rowLine cells =
      (if 3 ≤ cells.length then
        (if !((cells.getD 0 "").trim).isEmpty && !((cells.getD 2 "").trim).isEmpty &&
            pyIsdigit ((cells.getD 0 "").trim) then
          some ((cells.getD 0 "").trim ++ "\t" ++ (cells.getD 2 "").trim)
        else none)
      else none) := rfl
  rw [hrw]
  generalize (cells.getD 0 "").trim = a
  generalize (cells.getD 2 "").trim = b
  rcases Decidable.em (3 ≤ cells.length) with h3 | h3
  · rw [if_pos h3]
    by_cases ha : a = ""
    · have hA : a.isEmpty = true := by simp [String.isEmpty_iff, ha]
      have hc1 : ¬((!a.isEmpty && !b.isEmpty && pyIsdigit a) = true) := by simp [hA]
      have hc2 : ¬(3 ≤ cells.length ∧ a ≠ "" ∧ (∀ c ∈ a.data, c.isDigit) ∧ b ≠ "") := by
        rintro ⟨-, h, -⟩
        exact h ha
      rw [if_neg hc1, if_neg hc2]
    · have hA : a.isEmpty = false := by
        rw [Bool.eq_false_iff]
        intro h
        exact ha ((String.isEmpty_iff a).mp h)
      by_cases hb : b = ""
      · have hB : b.isEmpty = true := by simp [String.isEmpty_iff, hb]
        have hc1 : ¬((!a.isEmpty && !b.isEmpty && pyIsdigit a) = true) := by simp [hB]
        have hc2 : ¬(3 ≤ cells.length ∧ a ≠ "" ∧ (∀ c ∈ a.data, c.isDigit) ∧ b ≠ "") := by
          rintro ⟨-, -, -, h⟩
          exact h hb
        rw [if_neg hc1, if_neg hc2]
      · have hB : b.isEmpty = false := by
          rw [Bool.eq_false_iff]
          intro h
          exact hb ((String.isEmpty_iff b).mp h)
        by_cases hd : a.data.all Char.isDigit = true
        · have hcond : (!a.isEmpty && !b.isEmpty && pyIsdigit a) = true := by
            simp [pyIsdigit, hA, hB, hd]
          rw [if_pos hcond, if_pos ⟨h3, ha, by simpa using hd, hb⟩]
        · have hcond : ¬((!a.isEmpty && !b.isEmpty && pyIsdigit a) = true) := by
            simp [pyIsdigit, hd]
          have hc2 : ¬(3 ≤ cells.length ∧ a ≠ "" ∧ (∀ c ∈ a.data, c.isDigit) ∧ b ≠ "") := by
            rintro ⟨-, -, hall, -⟩
            exact hd (by simpa using hall)
          rw [if_neg hcond, if_neg hc2]
  · rw [if_neg h3, if_neg]
    rintro ⟨h, -⟩
    exact h3 h

/-- C7 witness: instantiated at a concrete page and row — the row
["12", "x", " R U "] yields the line "12\tR U". -/
theorem claim_C7_witness :
    (scrapeOutput (some [["Order", "2x2", "3x3"], ["12", "x", " R U "]])).1 =
      "Order\t3x3x3 Sequence" :: "-----\t--------------" ::
        [["12", "x", " R U "]].filterMap rowLine ∧
    rowLine ["12", "x", " R U "] =
      (if 3 ≤ (["12", "x", " R U "] : List String).length ∧
          ((["12", "x", " R U "] : List String).getD 0 "").trim ≠ "" ∧
          (∀ c ∈ (((["12", "x", " R U "] : List String).getD 0 "").trim).data, c.isDigit) ∧
          ((["12", "x", " R U "] : List String).getD 2 "").trim ≠ "" then
        some (((["12", "x", " R U "] : List String).getD 0 "").trim ++ "\t" ++
          (((["12", "x", " R U "] : List String).getD 2 "").trim))
      else none) :=
  claim_C7 [["Order", "2x2", "3x3"], ["12", "x", " R U "]] ["12", "x", " R U "]

/-- C8: both generator functions are closed, deterministic values — they
take no inputs, read no external state, and equal the fixed literal lists
below, so any two invocations return structurally equal values. -/
theorem claim_C8 :
    create_marked_cube_test =
      [⟨"marked_cube_R", "R", "Apply R to marked cube to detect inversions"⟩,
       ⟨"marked_cube_R'", "R'", "Apply R' to marked cube to detect inversions"⟩,
       ⟨"marked_cube_R2", "R2", "Apply R2 to marked cube to detect inversions"⟩,
       ⟨"marked_cube_L", "L", "Apply L to marked cube to detect inversions"⟩,
       ⟨"marked_cube_L'", "L'", "Apply L' to marked cube to detect inversions"⟩,
       ⟨"marked_cube_L2", "L2", "Apply L2 to marked cube to detect inversions"⟩,
       ⟨"marked_cube_U", "U", "Apply U to marked cube to detect inversions"⟩,
       ⟨"marked_cube_U'", "U'", "Apply U' to marked cube to detect inversions"⟩,
       ⟨"marked_cube_U2", "U2", "Apply U2 to marked cube to detect inversions"⟩,
       ⟨"marked_cube_D", "D", "Apply D to marked cube to detect inversions"⟩,
       ⟨"marked_cube_D'", "D'", "Apply D' to marked cube to detect inversions"⟩,
       ⟨"marked_cube_D2", "D2", "Apply D2 to marked cube to detect inversions"⟩,
       ⟨"marked_cube_F", "F", "Apply F to marked cube to detect inversions"⟩,
       ⟨"marked_cube_F'", "F'", "Apply F' to marked cube to detect inversions"⟩,
       ⟨"marked_cube_F2", "F2", "Apply F2 to marked cube to detect inversions"⟩,
       ⟨"marked_cube_B", "B", "Apply B to marked cube to detect inversions"⟩,
       ⟨"marked_cube_B'", "B'", "Apply B' to marked cube to detect inversions"⟩,
       ⟨"marked_cube_B2", "B2", "Apply B2 to marked cube to detect inversions"⟩] ∧
    create_equivalence_tests =
      [("R U R'", "R U R'"),
       ("R R R R", ""),
       ("R2 R2", ""),
       ("R U' U R'", "R R'"),
       ("R U R' U'", "(R U R' U')"),
       ("R U R' U'", "U R U' R'")] := by
  exact ⟨rfl, rfl⟩

/-- C9: when the fetched page contains no table, the scraper's whole
output is exactly the single line "No table found!" with exit status 1 —
no header lines and no data lines are emitted. -/
theorem claim_C9 : scrapeOutput none = (["No table found!"], 1) := rfl

/-- C10: the Marked Cube Tests section of the script's output reports only
the first 5 of the 18 generated test cases — those for moves R, R', R2, L,
L' — and none of the remaining 13 test cases appears in the printed
lines. -/
theorem claim_C10 :
    (create_marked_cube_test.take 5).map TestCase.move = ["R", "R'", "R2", "L", "L'"] ∧
    create_marked_cube_test.length = 18 ∧
    (create_marked_cube_test.drop 5).length = 13 ∧
    ((create_marked_cube_test.take 5).all fun t =>
      mainMarkedLines.contains ("Test: " ++ t.name)) = true ∧
    ((create_marked_cube_test.drop 5).all fun t =>
      !(mainMarkedLines.contains ("Test: " ++ t.name))) = true := by
  refine ⟨rfl, rfl, rfl, by decide, by decide⟩
